import Mathlib

/-!
Verification of the LISA multipredictor training pipeline
(`src/lisa/modeling/multipredictor.py` and
`src/lisa/modeling/remote_multipredictor.py`).

Modelling conventions.  Python dictionaries with string keys are modelled as
insertion-ordered association lists, floats as rationals, nullable label
columns as lists of `Option` values, and raised exceptions as `Except` errors.
A fitted sklearn or LightGBM estimator is modelled as a record of the
constructor parameters and the arguments its `fit` call received; `predict`
and `score` are external capabilities whose outcome is determined by those
records, so they carry no further information here.  External collaborators
(the splitter, the scaler, plotting, the tracking client) are out of scope per
the spec and appear only through their inputs and outputs.
-/

/-- A Python scalar hyperparameter value (only ints and strings occur here). -/
inductive PVal where
  | int (n : ℤ)
  | str (s : String)
deriving DecidableEq, Repr

/-- A Python dict with string keys, as an insertion-ordered association list. -/
abbrev PDict := List (String × PVal)

/-- One row of the feature matrix. -/
abbrev Row := List ℚ

/-- Python dict lookup `d[k]` (first binding wins; the modelled code never
creates duplicate keys). -/
def lookupKey {β : Type} (k : String) : List (String × β) → Option β
  | [] => none
  | (k2, v) :: d => if k = k2 then some v else lookupKey k d

/-- Python `dict.setdefault`: insert `(k, v)` at the end iff `k` is absent. -/
def setdefault (d : PDict) (k : String) (v : PVal) : PDict :=
  match lookupKey k d with
  | some _ => d
  | none => d ++ [(k, v)]

deriving instance DecidableEq for Except

/-- Python exceptions raised by the modelled code paths. -/
inductive PyError where
  | keyError (k : String)
  | attributeError (a : String)
  | typeError (msg : String)
  | valueError (msg : String)
deriving DecidableEq, Repr

/-- The arguments a fitted estimator received in its `fit` call. -/
structure FitData where
  X : List Row
  y : List String
  sampleWeight : Option (List ℚ)
deriving DecidableEq, Repr

/-- A (possibly unfitted) binary logistic-regression sub-estimator. -/
structure LogisticRegressionModel where
  params : PDict
  fitted : Option FitData
deriving DecidableEq, Repr

/-- `sklearn.multiclass.OneVsRestClassifier`.  Per sklearn's contract the
`estimators_` attribute is created only by `fit`; reading it on an unfitted
instance raises `AttributeError`, which is modelled by the `Option`. -/
structure OneVsRestModel where
  estimatorParams : PDict
  estimators_ : Option (List LogisticRegressionModel)
deriving DecidableEq, Repr

/-- A fitted classifier of one of the three families. -/
inductive ClassifierModel where
  | ovr (m : OneVsRestModel)
  | rf (params : PDict) (fit : FitData)
  | lgbm (params : PDict) (fit : FitData)
deriving DecidableEq, Repr

/-- The fixed per-class weight table (`multipredictor.py` line 62,
`remote_multipredictor.py` line 50). -/
def class_weights : List (String × ℚ) :=
  [("run", 1 / 0.4), ("jump", 1 / 0.024), ("walk", 1 / 0.576)]

/-- `np.array([class_weights[label] for label in y_train])` (line 64 / 51):
the per-row weight vector; a label missing from the table raises `KeyError`
(the spec's `UnknownLabelError`). -/
def sampleWeightOf : List String → Except PyError (List ℚ)
  | [] => Except.ok []
  | label :: rest =>
    match lookupKey label class_weights with
    | none => Except.error (PyError.keyError label)
    | some w =>
      match sampleWeightOf rest with
      | Except.error e => Except.error e
      | Except.ok ws => Except.ok (w :: ws)

/-- Lines 51-53 / 46-48 (identical in both variants): the classifier defaults,
applied with `setdefault` to a copy of the caller's dict. -/
def classifierEffectiveParams (params : PDict) : PDict :=
  setdefault (setdefault params "n_jobs" (PVal.int (-1))) "random_state" (PVal.int 42)

/-- The three regressor families of the `models` dispatch dict. -/
inductive RegModelFamily where
  | linear
  | rf
  | lgbm
deriving DecidableEq, Repr

/-- The `models` dispatch table of `regressor` (identical in both variants);
an unknown key raises `KeyError`. -/
def regModels : List (String × RegModelFamily) :=
  [("LR", RegModelFamily.linear), ("RF", RegModelFamily.rf), ("LGBM", RegModelFamily.lgbm)]

/-- The keyword parameters of `sklearn.linear_model.LinearRegression.__init__`,
from its documented signature. -/
def linearRegressionKwargs : List String :=
  ["fit_intercept", "copy_X", "n_jobs", "positive"]

/-- The keyword parameters of
`sklearn.ensemble.RandomForestRegressor.__init__`, from its documented
signature.  Note that `class_weight` is a classifier-only parameter: no
sklearn regressor constructor accepts it. -/
def randomForestRegressorKwargs : List String :=
  ["n_estimators", "criterion", "max_depth", "min_samples_split", "min_samples_leaf",
   "min_weight_fraction_leaf", "max_features", "max_leaf_nodes", "min_impurity_decrease",
   "bootstrap", "oob_score", "n_jobs", "random_state", "verbose", "warm_start",
   "ccp_alpha", "max_samples", "monotonic_cst"]

/-- The keyword names each regressor constructor accepts: `none` means any
keyword is accepted (`lightgbm.LGBMRegressor.__init__` ends in `**kwargs`),
`some ks` means exactly the listed keywords. -/
def regressorAcceptedKwargs : RegModelFamily → Option (List String)
  | RegModelFamily.linear => some linearRegressionKwargs
  | RegModelFamily.rf => some randomForestRegressorKwargs
  | RegModelFamily.lgbm => none

/-- Splatting a dict into a Python call (`models[model_name](**params)`):
CPython raises `TypeError` naming the first keyword, in dict insertion order,
that the callee does not accept; `none` if the call is well-formed. -/
def firstUnexpectedKwarg (accepted : Option (List String)) (params : PDict) : Option String :=
  match accepted with
  | none => none
  | some ks =>
    match params.find? (fun kv => !(ks.contains kv.1)) with
    | some kv => some kv.1
    | none => none

/-- polars `DataFrame.filter` with a boolean mask aligned row-by-row. -/
def filterByMask {α : Type} : List α → List Bool → List α
  | [], _ => []
  | _, [] => []
  | x :: xs, b :: bs => if b then x :: filterByMask xs bs else filterByMask xs bs

/-- A fitted regressor: family, constructor parameters, and the `fit` data. -/
structure RegFit where
  family : RegModelFamily
  params : PDict
  XFit : List Row
  yFit : List ℚ
deriving DecidableEq, Repr

/-- The observable result of `regressor`: the fitted model and the filtered
test pair.  `y_pred = model.predict(XTestFiltered)` and the score are external
capabilities determined by these fields. -/
structure RegResult where
  model : RegFit
  XTestFiltered : List Row
  yTestFiltered : List (Option ℚ)
deriving DecidableEq, Repr

/-- polars `Series.unique(maintain_order=True)`: the distinct values in order
of first occurrence. -/
def uniqueMaintainOrder : List String → List String
  | [] => []
  | x :: xs => x :: (uniqueMaintainOrder xs).filter (fun y => y != x)

/-- Modelled from the spec: `lisa.evaluate.confusion_matrix` is repository
code that is not present under `src/`.  Per the spec it is keyed by the
supplied label sequence on both axes; entry `(i, j)` counts held-out rows
whose true label is `labels[i]` and whose predicted label is `labels[j]`. -/
def confusionMatrix (labels : List String) (yTrue yPred : List String) : List (List ℕ) :=
  labels.map (fun t => labels.map (fun p =>
    ((yTrue.zip yPred).filter (fun q => q.1 == t && q.2 == p)).length))

/-- Insertion into an ascending-by-value index list, earlier index first on
ties (models `np.argsort(feature_importances)`; the spec leaves the tie order
to the underlying sort). -/
def insertIdxAsc (fi : List ℚ) (i : Nat) : List Nat → List Nat
  | [] => [i]
  | j :: js => if fi.getD i 0 ≤ fi.getD j 0 then i :: j :: js else j :: insertIdxAsc fi i js

/-- `np.argsort(feature_importances)`: indices sorted ascending by value. -/
def argsortAsc (fi : List ℚ) : List Nat :=
  (List.range fi.length).foldr (insertIdxAsc fi) []

/-- Python dict construction from a key-value sequence: the first insertion
fixes the position of a key, later duplicates overwrite the value in place. -/
def dictOfPairs (ps : List (String × ℚ)) : List (String × ℚ) :=
  ps.foldl
    (fun acc p =>
      if (lookupKey p.1 acc).isSome then
        acc.map (fun q => if q.1 = p.1 then (q.1, p.2) else q)
      else acc ++ [p])
    []

/-- Stable descending insertion by value (models Python `sorted` with the
value key and `reverse=True`, which is stable). -/
def insertValDesc (p : String × ℚ) : List (String × ℚ) → List (String × ℚ)
  | [] => [p]
  | q :: qs => if q.2 ≤ p.2 then p :: q :: qs else q :: insertValDesc p qs

/-- Python `sorted(items, key=value, reverse=True)`. -/
def sortByValDesc (l : List (String × ℚ)) : List (String × ℚ) :=
  l.foldr insertValDesc []

/-- `_feature_importances` (multipredictor lines 182-205, remote lines
175-198, identical in both variants): argsort the raw importances, reverse for
descending order, build the name-to-value dict in that order, then re-sort the
items by value descending.  In context the index lists are in range, so the
defaulted `getD` reads coincide with Python's indexing. -/
def featureImportances (fi : List ℚ) (names : List String) : List (String × ℚ) :=
  let indices := (argsortAsc fi).reverse
  let pairs := (List.range fi.length).map
    (fun i => (names.getD (indices.getD i 0) "", fi.getD (indices.getD i 0) 0))
  sortByValDesc (dictOfPairs pairs)

/-- A heap of Python dict objects: used to state that the param-handling code
mutates only its private copy of `params`, never the caller's dict. -/
structure Store where
  dicts : List PDict
deriving DecidableEq, Repr

/-- Dereference a dict object. -/
def Store.read (s : Store) (r : Nat) : PDict := s.dicts.getD r []

/-- `params.copy()`: allocate a fresh dict object with the same entries. -/
def Store.alloc (s : Store) (d : PDict) : Store × Nat :=
  (⟨s.dicts ++ [d]⟩, s.dicts.length)

/-- Overwrite a dict object in place. -/
def Store.write (s : Store) (r : Nat) (d : PDict) : Store := ⟨s.dicts.set r d⟩

/-- `s[r].setdefault(k, v)`: an in-place update of one dict object. -/
def Store.setdefaultAt (s : Store) (r : Nat) (k : String) (v : PVal) : Store :=
  s.write r (setdefault (s.read r) k v)

/-- The split handed to `main` by the external splitter, with features already
scaled where the family requires it (scaling is an external collaborator). -/
structure SplitData where
  scaled_X_train : List Row
  scaled_X_test : List Row
  y1_train : List String
  y2_train : List (Option ℚ)
  y2_test : List (Option ℚ)
  y3_train : List (Option ℚ)
  y3_test : List (Option ℚ)
deriving DecidableEq, Repr

/-- Which stages of `main` executed and what they produced.  `main` has no
exception handling, so an uncaught exception in one stage prevents every later
stage from running (`none`). -/
structure StageTrace where
  activity : Option (Except PyError ClassifierModel)
  speed : Option (Except PyError RegResult)
  incline : Option (Except PyError RegResult)
deriving DecidableEq, Repr

namespace Multipredictor

/-- `multipredictor.classifier` (lines 39-66).  The dict copy and defaults,
the weight vector, and the family dispatch are evaluated in source order; an
unknown family name raises `KeyError` at the dispatch.  For `"LR"` the source
calls `OneVsRestClassifier(LogisticRegression(**params)).fit(X_train, y_train,
sample_weight=sample_weight)`; per sklearn's contract `OneVsRestClassifier.fit`
accepts no `sample_weight` keyword (the one-vs-rest wrapper does not natively
route per-sample weights to its sub-estimators), so the call raises.  sklearn
fit calls require at least one sample, hence the empty-input error.  The two
defaulted keywords `n_jobs` and `random_state` are accepted by all three
classifier constructors, so the defaults never make construction raise
(keyword validation of arbitrary caller-supplied keys is not modelled here;
the claims evaluate the classifier only at accepted keys, and the two
variants construct identically in any case). -/
def classifier (model_name : String) (X_train : List Row) (y_train : List String)
    (params : PDict) : Except PyError ClassifierModel :=
  let params := classifierEffectiveParams params
  match sampleWeightOf y_train with
  | Except.error e => Except.error e
  | Except.ok sample_weight =>
    if model_name = "LR" then
      Except.error (PyError.typeError "unexpected keyword argument sample_weight")
    else if model_name = "RF" then
      if X_train = [] then Except.error (PyError.valueError "0 samples")
      else Except.ok (ClassifierModel.rf params ⟨X_train, y_train, some sample_weight⟩)
    else if model_name = "LGBM" then
      if X_train = [] then Except.error (PyError.valueError "0 samples")
      else Except.ok (ClassifierModel.lgbm params ⟨X_train, y_train, some sample_weight⟩)
    else Except.error (PyError.keyError model_name)

/-- `multipredictor.regressor`, lines 92-101: the defaults, applied with
`setdefault` to a copy of the caller's dict. -/
def regressorEffectiveParams (model_name : String) (params : PDict) : PDict :=
  let params := if model_name ≠ "LR" then setdefault params "random_state" (PVal.int 42) else params
  let params :=
    if model_name = "RF" then
      setdefault (setdefault params "n_estimators" (PVal.int 10)) "max_depth" (PVal.int 10)
    else params
  let params := setdefault params "n_jobs" (PVal.int (-1))
  setdefault params "class_weight" (PVal.str "balanced")

/-- `multipredictor.regressor` (lines 69-126).  Line 108 constructs the
estimator by splatting the effective params into the family's constructor;
because line 101 always defaults `class_weight="balanced"` and neither
`LinearRegression` nor `RandomForestRegressor` accepts that keyword (only
`LGBMRegressor`, whose constructor takes `**kwargs`, does — an inconsistency
the spec flags in its design notes), construction raises `TypeError` for the
LR and RF families before any filtering runs.  After a successful
construction, null rows are filtered from the train pair by the train labels'
null mask and from the test pair by the test labels' null mask; `model.fit`
and `model.predict` require at least one sample, so with zero rows after
null-filtering sklearn raises `ValueError` (the spec's
`EmptyConditionedDataset`). -/
def regressor (model_name : String) (X_train X_test : List Row)
    (y_train y_test : List (Option ℚ)) (params : PDict) : Except PyError RegResult :=
  let params := regressorEffectiveParams model_name params
  match lookupKey model_name regModels with
  | none => Except.error (PyError.keyError model_name)
  | some family =>
    match firstUnexpectedKwarg (regressorAcceptedKwargs family) params with
    | some k => Except.error (PyError.typeError ("unexpected keyword argument " ++ k))
    | none =>
    let train_non_null_mask := y_train.map Option.isSome
    let X_train_filtered := filterByMask X_train train_non_null_mask
    let y_train_filtered := filterByMask y_train train_non_null_mask
    if X_train_filtered = [] then Except.error (PyError.valueError "0 samples")
    else
      let model : RegFit := ⟨family, params, X_train_filtered, y_train_filtered.reduceOption⟩
      let test_non_null_mask := y_test.map Option.isSome
      let X_test_filtered := filterByMask X_test test_non_null_mask
      let y_test_filtered := filterByMask y_test test_non_null_mask
      if X_test_filtered = [] then Except.error (PyError.valueError "0 samples")
      else Except.ok ⟨model, X_test_filtered, y_test_filtered⟩

/-- The three fitting stages of `multipredictor.main` (lines 283-355): the
activity classifier, the speed regressor, and the incline regressor run
sequentially with `hyperparams = {}` and no exception handling, so a raise in
one stage prevents all later stages from executing. -/
def mainStages (model : String) (d : SplitData) : StageTrace :=
  match Multipredictor.classifier model d.scaled_X_train d.y1_train [] with
  | Except.error e => ⟨some (Except.error e), none, none⟩
  | Except.ok a =>
    match Multipredictor.regressor model d.scaled_X_train d.scaled_X_test d.y2_train d.y2_test [] with
    | Except.error e => ⟨some (Except.ok a), some (Except.error e), none⟩
    | Except.ok s =>
      ⟨some (Except.ok a), some (Except.ok s),
        some (Multipredictor.regressor model d.scaled_X_train d.scaled_X_test d.y3_train d.y3_test [])⟩

/-- `multipredictor.main` line 313: the confusion-matrix label axis is the
ACTIVITY column's unique values with `maintain_order=True`. -/
def mainConfusionLabels (activityCol : List String) : List String :=
  uniqueMaintainOrder activityCol

/-- The dict-mutating prefix of `classifier` (lines 51-53) against an explicit
heap: `params = params.copy()` allocates, the `setdefault` calls mutate only
the copy.  Returns the heap and the reference to the effective dict. -/
def classifierParamsHeap (s : Store) (r : Nat) : Store × Nat :=
  let a := s.alloc (s.read r)
  let s1 := a.1.setdefaultAt a.2 "n_jobs" (PVal.int (-1))
  let s2 := s1.setdefaultAt a.2 "random_state" (PVal.int 42)
  (s2, a.2)

/-- The dict-mutating prefix of `regressor` (lines 92-101) against an explicit
heap. -/
def regressorParamsHeap (model_name : String) (s : Store) (r : Nat) : Store × Nat :=
  let a := s.alloc (s.read r)
  let s1 := if model_name ≠ "LR" then a.1.setdefaultAt a.2 "random_state" (PVal.int 42) else a.1
  let s2 :=
    if model_name = "RF" then
      (s1.setdefaultAt a.2 "n_estimators" (PVal.int 10)).setdefaultAt a.2 "max_depth" (PVal.int 10)
    else s1
  let s3 := s2.setdefaultAt a.2 "n_jobs" (PVal.int (-1))
  let s4 := s3.setdefaultAt a.2 "class_weight" (PVal.str "balanced")
  (s4, a.2)

end Multipredictor

namespace RemoteMultipredictor

/-- `remote_multipredictor.classifier` (lines 34-66).  Identical to the
multipredictor variant except for the `"LR"` branch (lines 59-64): it
constructs a fresh `OneVsRestClassifier` and immediately iterates over
`model.estimators_`, an attribute that sklearn creates only during `fit`, so
on the unfitted instance the loop header raises `AttributeError`.  The
`some` branch transcribes the loop body (each sub-estimator refitted in place
with the shared weight vector and the model returned), but it is unreachable
because the model was just constructed. -/
def classifier (model_name : String) (X_train : List Row) (y_train : List String)
    (params : PDict) : Except PyError ClassifierModel :=
  let params := classifierEffectiveParams params
  match sampleWeightOf y_train with
  | Except.error e => Except.error e
  | Except.ok sample_weight =>
    if model_name = "LR" then
      let model : OneVsRestModel := ⟨params, none⟩
      match model.estimators_ with
      | none => Except.error (PyError.attributeError "estimators_")
      | some ests =>
        Except.ok (ClassifierModel.ovr
          ⟨params,
            some (ests.map (fun e =>
              { e with fitted := some ⟨X_train, y_train, some sample_weight⟩ }))⟩)
    else if model_name = "RF" then
      if X_train = [] then Except.error (PyError.valueError "0 samples")
      else Except.ok (ClassifierModel.rf params ⟨X_train, y_train, some sample_weight⟩)
    else if model_name = "LGBM" then
      if X_train = [] then Except.error (PyError.valueError "0 samples")
      else Except.ok (ClassifierModel.lgbm params ⟨X_train, y_train, some sample_weight⟩)
    else Except.error (PyError.keyError model_name)

/-- `remote_multipredictor.regressor`, lines 92-100: as the multipredictor
variant but without the `class_weight` default. -/
def regressorEffectiveParams (model_name : String) (params : PDict) : PDict :=
  let params := if model_name ≠ "LR" then setdefault params "random_state" (PVal.int 42) else params
  let params :=
    if model_name = "RF" then
      setdefault (setdefault params "n_estimators" (PVal.int 10)) "max_depth" (PVal.int 10)
    else params
  setdefault params "n_jobs" (PVal.int (-1))

/-- `remote_multipredictor.regressor` (lines 69-123): identical conditioning,
construction and fitting to the multipredictor variant, differing only in the
effective hyperparameters (no `class_weight` default, so its own defaults are
accepted by every family's constructor) and in which projections of the
result the caller receives. -/
def regressor (model_name : String) (X_train X_test : List Row)
    (y_train y_test : List (Option ℚ)) (params : PDict) : Except PyError RegResult :=
  let params := regressorEffectiveParams model_name params
  match lookupKey model_name regModels with
  | none => Except.error (PyError.keyError model_name)
  | some family =>
    match firstUnexpectedKwarg (regressorAcceptedKwargs family) params with
    | some k => Except.error (PyError.typeError ("unexpected keyword argument " ++ k))
    | none =>
    let train_non_null_mask := y_train.map Option.isSome
    let X_train_filtered := filterByMask X_train train_non_null_mask
    let y_train_filtered := filterByMask y_train train_non_null_mask
    if X_train_filtered = [] then Except.error (PyError.valueError "0 samples")
    else
      let model : RegFit := ⟨family, params, X_train_filtered, y_train_filtered.reduceOption⟩
      let test_non_null_mask := y_test.map Option.isSome
      let X_test_filtered := filterByMask X_test test_non_null_mask
      let y_test_filtered := filterByMask y_test test_non_null_mask
      if X_test_filtered = [] then Except.error (PyError.valueError "0 samples")
      else Except.ok ⟨model, X_test_filtered, y_test_filtered⟩

/-- The dict-mutating prefix of `remote_multipredictor.classifier` (lines
46-48) against an explicit heap. -/
def classifierParamsHeap (s : Store) (r : Nat) : Store × Nat :=
  let a := s.alloc (s.read r)
  let s1 := a.1.setdefaultAt a.2 "n_jobs" (PVal.int (-1))
  let s2 := s1.setdefaultAt a.2 "random_state" (PVal.int 42)
  (s2, a.2)

/-- The dict-mutating prefix of `remote_multipredictor.regressor` (lines
92-100) against an explicit heap. -/
def regressorParamsHeap (model_name : String) (s : Store) (r : Nat) : Store × Nat :=
  let a := s.alloc (s.read r)
  let s1 := if model_name ≠ "LR" then a.1.setdefaultAt a.2 "random_state" (PVal.int 42) else a.1
  let s2 :=
    if model_name = "RF" then
      (s1.setdefaultAt a.2 "n_estimators" (PVal.int 10)).setdefaultAt a.2 "max_depth" (PVal.int 10)
    else s1
  let s3 := s2.setdefaultAt a.2 "n_jobs" (PVal.int (-1))
  (s3, a.2)

end RemoteMultipredictor

/-- A split whose speed labels are all null while the activity and incline
data are well-formed (the spec's all-standing regression scenario). -/
def allNullSpeedSplit : SplitData :=
  ⟨[[1], [2]], [[3]], ["run", "walk"], [none, none], [none], [some 1, some 2], [some 3]⟩

/-! ### Helper lemmas: dict lookup and `setdefault` -/

lemma lookupKey_append {β : Type} (k : String) (d e : List (String × β)) :
    lookupKey k (d ++ e) = (lookupKey k d).or (lookupKey k e) := by
  induction d with
  | nil => simp [lookupKey]
  | cons p d ih =>
    obtain ⟨k2, v⟩ := p
    by_cases h : k = k2 <;> simp [lookupKey, h, ih]

lemma lookupKey_setdefault_self (d : PDict) (k : String) (v : PVal) :
    lookupKey k (setdefault d k v) = some ((lookupKey k d).getD v) := by
  unfold setdefault
  cases h : lookupKey k d with
  | none => simp [lookupKey_append, h, lookupKey]
  | some w => simp [h]

lemma lookupKey_setdefault_ne (d : PDict) (k k2 : String) (v : PVal) (h : k ≠ k2) :
    lookupKey k (setdefault d k2 v) = lookupKey k d := by
  unfold setdefault
  cases h2 : lookupKey k2 d with
  | none =>
    rw [lookupKey_append]
    cases h3 : lookupKey k d <;> simp [lookupKey, h, h3]
  | some w => rfl

lemma lookupKey_setdefault_of_some (d : PDict) (k k2 : String) (v w : PVal)
    (h : lookupKey k d = some v) :
    lookupKey k (setdefault d k2 w) = some v := by
  by_cases hk : k = k2
  · subst hk
    rw [lookupKey_setdefault_self, h]
    rfl
  · rw [lookupKey_setdefault_ne d k k2 w hk, h]

/-! ### Helper lemmas: the sample-weight vector -/

lemma class_weights_pos (k : String) (w : ℚ) (h : lookupKey k class_weights = some w) :
    0 < w := by
  simp only [class_weights, lookupKey] at h
  split_ifs at h
  · rw [Option.some.injEq] at h; rw [← h]; norm_num
  · rw [Option.some.injEq] at h; rw [← h]; norm_num
  · rw [Option.some.injEq] at h; rw [← h]; norm_num

lemma sampleWeightOf_ok_of_all (ys : List String)
    (h : ∀ l ∈ ys, (lookupKey l class_weights).isSome) :
    sampleWeightOf ys = Except.ok (ys.map (fun l => (lookupKey l class_weights).getD 0)) := by
  induction ys with
  | nil => rfl
  | cons a rest ih =>
    have ha := h a (by simp)
    obtain ⟨w, hw⟩ := Option.isSome_iff_exists.mp ha
    have hrest := ih (fun l hl => h l (by simp [hl]))
    simp only [sampleWeightOf, hw, hrest, List.map_cons]
    rfl

lemma sampleWeightOf_err_of_missing (ys : List String) (l : String)
    (hl : l ∈ ys) (hmiss : lookupKey l class_weights = none) :
    ∃ l2, l2 ∈ ys ∧ lookupKey l2 class_weights = none
      ∧ sampleWeightOf ys = Except.error (PyError.keyError l2) := by
  induction ys with
  | nil => cases hl
  | cons a rest ih =>
    cases h : lookupKey a class_weights with
    | none => exact ⟨a, by simp, h, by simp [sampleWeightOf, h]⟩
    | some w =>
      have hlr : l ∈ rest := by
        rcases List.mem_cons.mp hl with h1 | h1
        · subst h1
          rw [h] at hmiss
          cases hmiss
        · exact h1
      obtain ⟨l2, hl2, hm2, he2⟩ := ih hlr
      exact ⟨l2, by simp [hl2], hm2, by simp [sampleWeightOf, h, he2]⟩

/-! ### Helper lemmas: null-mask filtering -/

lemma filterByMask_zip {α β : Type} :
    ∀ (X : List α) (y : List (Option β)), X.length = y.length →
      (filterByMask X (y.map Option.isSome)).zip (filterByMask y (y.map Option.isSome)) =
        (X.zip y).filter (fun q => q.2.isSome)
  | [], [], _ => rfl
  | [], _ :: _, h => by cases h
  | _ :: _, [], h => by cases h
  | x :: xs, o :: ys, h => by
    have ih := filterByMask_zip xs ys (by simpa using h)
    cases o <;> simp [filterByMask, List.filter_cons, List.zip_cons_cons, ih]

lemma reduceOption_filterByMask {β : Type} :
    ∀ y : List (Option β),
      ((filterByMask y (y.map Option.isSome)).reduceOption).map Option.some =
        filterByMask y (y.map Option.isSome)
  | [] => rfl
  | none :: ys => by
    simpa [filterByMask] using reduceOption_filterByMask ys
  | some v :: ys => by
    simpa [filterByMask] using reduceOption_filterByMask ys

lemma isSome_of_mem_filterByMask {β : Type} :
    ∀ (y : List (Option β)) (v : Option β), v ∈ filterByMask y (y.map Option.isSome) →
      v.isSome
  | [], _, h => by cases h
  | none :: ys, v, h => by
    apply isSome_of_mem_filterByMask ys v
    simpa [filterByMask] using h
  | some w :: ys, v, h => by
    rcases (by simpa [filterByMask] using h : v = some w ∨ v ∈ filterByMask ys (ys.map Option.isSome)) with h1 | h1
    · simp [h1]
    · exact isSome_of_mem_filterByMask ys v h1

/-! ### Helper lemmas: the regressor's success shape -/

lemma multiRegressor_ok_iff (m : String) (Xtr Xte : List Row)
    (ytr yte : List (Option ℚ)) (p : PDict) (r : RegResult) :
    Multipredictor.regressor m Xtr Xte ytr yte p = Except.ok r ↔
      ∃ f, lookupKey m regModels = some f
        ∧ firstUnexpectedKwarg (regressorAcceptedKwargs f)
            (Multipredictor.regressorEffectiveParams m p) = none
        ∧ filterByMask Xtr (ytr.map Option.isSome) ≠ []
        ∧ filterByMask Xte (yte.map Option.isSome) ≠ []
        ∧ r = ⟨⟨f, Multipredictor.regressorEffectiveParams m p,
                filterByMask Xtr (ytr.map Option.isSome),
                (filterByMask ytr (ytr.map Option.isSome)).reduceOption⟩,
              filterByMask Xte (yte.map Option.isSome),
              filterByMask yte (yte.map Option.isSome)⟩ := by
  unfold Multipredictor.regressor
  cases h : lookupKey m regModels with
  | none => simp [h]
  | some f =>
    simp only [h]
    cases hg : firstUnexpectedKwarg (regressorAcceptedKwargs f)
        (Multipredictor.regressorEffectiveParams m p) with
    | some k => simp [hg]
    | none =>
      simp only [hg]
      split_ifs with h1 h2
      · simp [h1]
      · simp [h2]
      · constructor
        · intro he
          rw [Except.ok.injEq] at he
          exact ⟨f, rfl, hg, h1, h2, he.symm⟩
        · rintro ⟨f2, hf2, hg2, h3, h4, rfl⟩
          rw [Option.some.injEq] at hf2
          rw [hf2]

lemma remoteRegressor_ok_iff (m : String) (Xtr Xte : List Row)
    (ytr yte : List (Option ℚ)) (p : PDict) (r : RegResult) :
    RemoteMultipredictor.regressor m Xtr Xte ytr yte p = Except.ok r ↔
      ∃ f, lookupKey m regModels = some f
        ∧ firstUnexpectedKwarg (regressorAcceptedKwargs f)
            (RemoteMultipredictor.regressorEffectiveParams m p) = none
        ∧ filterByMask Xtr (ytr.map Option.isSome) ≠ []
        ∧ filterByMask Xte (yte.map Option.isSome) ≠ []
        ∧ r = ⟨⟨f, RemoteMultipredictor.regressorEffectiveParams m p,
                filterByMask Xtr (ytr.map Option.isSome),
                (filterByMask ytr (ytr.map Option.isSome)).reduceOption⟩,
              filterByMask Xte (yte.map Option.isSome),
              filterByMask yte (yte.map Option.isSome)⟩ := by
  unfold RemoteMultipredictor.regressor
  cases h : lookupKey m regModels with
  | none => simp [h]
  | some f =>
    simp only [h]
    cases hg : firstUnexpectedKwarg (regressorAcceptedKwargs f)
        (RemoteMultipredictor.regressorEffectiveParams m p) with
    | some k => simp [hg]
    | none =>
      simp only [hg]
      split_ifs with h1 h2
      · simp [h1]
      · simp [h2]
      · constructor
        · intro he
          rw [Except.ok.injEq] at he
          exact ⟨f, rfl, hg, h1, h2, he.symm⟩
        · rintro ⟨f2, hf2, hg2, h3, h4, rfl⟩
          rw [Option.some.injEq] at hf2
          rw [hf2]

lemma Multipredictor.regressor_err_empty_train (m : String) (f : RegModelFamily)
    (Xtr Xte : List Row) (ytr yte : List (Option ℚ)) (p : PDict)
    (hf : lookupKey m regModels = some f)
    (hg : firstUnexpectedKwarg (regressorAcceptedKwargs f)
        (Multipredictor.regressorEffectiveParams m p) = none)
    (h : filterByMask Xtr (ytr.map Option.isSome) = []) :
    Multipredictor.regressor m Xtr Xte ytr yte p
      = Except.error (PyError.valueError "0 samples") := by
  unfold Multipredictor.regressor
  rw [hf]
  simp [hg, h]

lemma firstUnexpectedKwarg_some (ks : List String) (d : PDict) (kv : String × PVal)
    (hmem : kv ∈ d) (hk : ks.contains kv.1 = false) :
    ∃ k, firstUnexpectedKwarg (some ks) d = some k := by
  have hfind : (d.find? (fun q => !(ks.contains q.1))).isSome := by
    rw [List.find?_isSome]
    refine ⟨kv, hmem, ?_⟩
    simp only [hk, Bool.not_false]
  obtain ⟨q, hq⟩ := Option.isSome_iff_exists.mp hfind
  exact ⟨q.1, by simp only [firstUnexpectedKwarg, hq]⟩

lemma mem_of_lookupKey {β : Type} (k : String) (v : β) :
    ∀ d : List (String × β), lookupKey k d = some v → (k, v) ∈ d
  | [], h => by cases h
  | (k2, v2) :: d, h => by
    by_cases hk : k = k2
    · subst hk
      have h2 : v2 = v := by simpa [lookupKey] using h
      rw [← h2]
      exact List.mem_cons_self _ _
    · simp only [lookupKey, if_neg hk] at h
      exact List.mem_cons_of_mem _ (mem_of_lookupKey k v d h)

lemma multiRegressor_typeError (m : String) (f : RegModelFamily) (Xtr Xte : List Row)
    (ytr yte : List (Option ℚ)) (p : PDict) (k : String)
    (hf : lookupKey m regModels = some f)
    (hg : firstUnexpectedKwarg (regressorAcceptedKwargs f)
        (Multipredictor.regressorEffectiveParams m p) = some k) :
    Multipredictor.regressor m Xtr Xte ytr yte p
      = Except.error (PyError.typeError ("unexpected keyword argument " ++ k)) := by
  unfold Multipredictor.regressor
  rw [hf]
  simp [hg]

lemma Multipredictor.classifier_ok_family (m : String) (X : List Row) (y : List String)
    (p : PDict) (a : ClassifierModel) (h : Multipredictor.classifier m X y p = Except.ok a) :
    m = "RF" ∨ m = "LGBM" := by
  unfold Multipredictor.classifier at h
  cases hs : sampleWeightOf y with
  | error e => rw [hs] at h; cases h
  | ok sw =>
    rw [hs] at h
    split_ifs at h <;>
      first
        | exact Or.inl (by assumption)
        | exact Or.inr (by assumption)
        | cases h

/-! ### Helper lemmas: first-occurrence label order -/

lemma mem_uniqueMaintainOrder (a : String) : ∀ xs : List String,
    a ∈ uniqueMaintainOrder xs ↔ a ∈ xs
  | [] => Iff.rfl
  | x :: xs => by
    simp only [uniqueMaintainOrder, List.mem_cons, List.mem_filter, bne_iff_ne]
    by_cases hax : a = x
    · simp [hax]
    · simp [hax, mem_uniqueMaintainOrder a xs]

lemma nodup_uniqueMaintainOrder : ∀ xs : List String, (uniqueMaintainOrder xs).Nodup
  | [] => List.nodup_nil
  | x :: xs => by
    refine List.nodup_cons.mpr ⟨?_, (nodup_uniqueMaintainOrder xs).filter _⟩
    intro hmem
    have hx := (List.mem_filter.mp hmem).2
    simp at hx

lemma indexOf_uniqueMaintainOrder : ∀ xs : List String,
    (uniqueMaintainOrder xs).Pairwise (fun a b => xs.indexOf a < xs.indexOf b)
  | [] => List.Pairwise.nil
  | x :: xs => by
    refine List.pairwise_cons.mpr ⟨?_, ?_⟩
    · intro b hb
      have hbx : b ≠ x := by simpa using (List.mem_filter.mp hb).2
      rw [List.indexOf_cons_self, List.indexOf_cons_ne xs (Ne.symm hbx)]
      exact Nat.succ_pos _
    · have hsub : List.Sublist ((uniqueMaintainOrder xs).filter (fun y => y != x))
          (uniqueMaintainOrder xs) := List.filter_sublist _
      have hpw := (indexOf_uniqueMaintainOrder xs).sublist hsub
      refine hpw.imp_of_mem ?_
      intro a b ha hb hab
      have hax : a ≠ x := by simpa using (List.mem_filter.mp ha).2
      have hbx : b ≠ x := by simpa using (List.mem_filter.mp hb).2
      rw [List.indexOf_cons_ne xs (Ne.symm hax), List.indexOf_cons_ne xs (Ne.symm hbx)]
      exact Nat.add_lt_add_right hab 1

/-! ### Helper lemmas: the feature-importance sort -/

lemma mem_insertValDesc (p x : String × ℚ) : ∀ l, x ∈ insertValDesc p l ↔ x = p ∨ x ∈ l
  | [] => by simp [insertValDesc]
  | q :: qs => by
    by_cases h : q.2 ≤ p.2
    · simp [insertValDesc, h]
    · simp only [insertValDesc, if_neg h, List.mem_cons, mem_insertValDesc p x qs]
      tauto

lemma pairwise_insertValDesc (p : String × ℚ) :
    ∀ l, l.Pairwise (fun a b : String × ℚ => b.2 ≤ a.2) →
      (insertValDesc p l).Pairwise (fun a b : String × ℚ => b.2 ≤ a.2)
  | [], _ => by simp [insertValDesc]
  | q :: qs, h => by
    rcases List.pairwise_cons.mp h with ⟨hq, hqs⟩
    by_cases hle : q.2 ≤ p.2
    · simp only [insertValDesc, if_pos hle]
      refine List.pairwise_cons.mpr ⟨?_, h⟩
      intro b hb
      rcases List.mem_cons.mp hb with rfl | hb2
      · exact hle
      · exact le_trans (hq b hb2) hle
    · simp only [insertValDesc, if_neg hle]
      refine List.pairwise_cons.mpr ⟨?_, pairwise_insertValDesc p qs hqs⟩
      intro b hb
      rcases (mem_insertValDesc p b qs).mp hb with rfl | hb2
      · exact (not_le.mp hle).le
      · exact hq b hb2

lemma pairwise_sortByValDesc (l : List (String × ℚ)) :
    (sortByValDesc l).Pairwise (fun a b : String × ℚ => b.2 ≤ a.2) := by
  unfold sortByValDesc
  induction l with
  | nil => simp
  | cons p ps ih => exact pairwise_insertValDesc p _ ih

lemma mem_sortByValDesc (x : String × ℚ) (l : List (String × ℚ))
    (h : x ∈ sortByValDesc l) : x ∈ l := by
  unfold sortByValDesc at h
  induction l with
  | nil => exact absurd h (List.not_mem_nil x)
  | cons p ps ih =>
    rcases (mem_insertValDesc p x _).mp h with rfl | h2
    · simp
    · simp [ih h2]

lemma mem_dictFold (x : String × ℚ) :
    ∀ (ps acc : List (String × ℚ)),
      x ∈ ps.foldl
            (fun acc p =>
              if (lookupKey p.1 acc).isSome then
                acc.map (fun q => if q.1 = p.1 then (q.1, p.2) else q)
              else acc ++ [p]) acc →
      x ∈ acc ∨ x ∈ ps
  | [], acc, h => Or.inl h
  | p :: ps, acc, h => by
    rcases mem_dictFold x ps _ h with hstep | hps
    · dsimp only at hstep
      by_cases hk : (lookupKey p.1 acc).isSome
      · rw [if_pos hk] at hstep
        rcases List.mem_map.mp hstep with ⟨q, hq, hqx⟩
        by_cases hqp : q.1 = p.1
        · rw [if_pos hqp] at hqx
          have hx : x = p := by rw [← hqx, hqp]
          rw [hx]
          exact Or.inr (List.mem_cons_self p ps)
        · rw [if_neg hqp] at hqx
          exact Or.inl (hqx ▸ hq)
      · rw [if_neg hk] at hstep
        rcases List.mem_append.mp hstep with h1 | h1
        · exact Or.inl h1
        · rw [List.mem_singleton.mp h1]
          exact Or.inr (List.mem_cons_self p ps)
    · exact Or.inr (List.mem_cons_of_mem p hps)

lemma mem_dictOfPairs (ps : List (String × ℚ)) (x : String × ℚ)
    (h : x ∈ dictOfPairs ps) : x ∈ ps := by
  rcases mem_dictFold x ps [] h with h1 | h1
  · exact absurd h1 (List.not_mem_nil x)
  · exact h1

lemma mem_insertIdxAsc (fi : List ℚ) (i x : Nat) :
    ∀ l, x ∈ insertIdxAsc fi i l ↔ x = i ∨ x ∈ l
  | [] => by simp [insertIdxAsc]
  | j :: js => by
    by_cases h : fi.getD i 0 ≤ fi.getD j 0
    · simp only [insertIdxAsc, if_pos h, List.mem_cons]
    · simp only [insertIdxAsc, if_neg h, List.mem_cons, mem_insertIdxAsc fi i x js]
      tauto

lemma length_insertIdxAsc (fi : List ℚ) (i : Nat) :
    ∀ l, (insertIdxAsc fi i l).length = l.length + 1
  | [] => rfl
  | j :: js => by
    by_cases h : fi.getD i 0 ≤ fi.getD j 0
    · simp only [insertIdxAsc, if_pos h, List.length_cons]
    · simp only [insertIdxAsc, if_neg h, List.length_cons, length_insertIdxAsc fi i js]

lemma mem_foldr_insertIdxAsc (fi : List ℚ) (x : Nat) :
    ∀ l : List Nat, x ∈ l.foldr (insertIdxAsc fi) [] → x ∈ l
  | [], h => h
  | i :: is, h => by
    rcases (mem_insertIdxAsc fi i x _).mp h with rfl | h2
    · simp
    · simp [mem_foldr_insertIdxAsc fi x is h2]

lemma mem_argsortAsc_lt (fi : List ℚ) (x : Nat) (h : x ∈ argsortAsc fi) : x < fi.length :=
  List.mem_range.mp (mem_foldr_insertIdxAsc fi x _ h)

lemma length_argsortAsc (fi : List ℚ) : (argsortAsc fi).length = fi.length := by
  unfold argsortAsc
  have haux : ∀ l : List Nat, (l.foldr (insertIdxAsc fi) []).length = l.length := by
    intro l
    induction l with
    | nil => rfl
    | cons i is ih => simp [length_insertIdxAsc, ih]
  rw [haux, List.length_range]

/-! ### Helper lemmas: the dict heap -/

lemma list_getD_set_ne {α : Type} (l : List α) (i j : Nat) (a d : α) (h : i ≠ j) :
    (l.set j a).getD i d = l.getD i d := by
  simp [List.getD, List.getElem?_set_ne (Ne.symm h)]

lemma list_getD_set_self {α : Type} (l : List α) (j : Nat) (a d : α) (h : j < l.length) :
    (l.set j a).getD j d = a := by
  simp [List.getD, List.getElem?_set_eq_of_lt a h]

lemma store_read_alloc_lt (s : Store) (d : PDict) (r : Nat) (h : r < s.dicts.length) :
    (s.alloc d).1.read r = s.read r := by
  show (s.dicts ++ [d]).getD r [] = s.dicts.getD r []
  exact List.getD_append _ _ _ _ h

lemma store_read_alloc_new (s : Store) (d : PDict) :
    (s.alloc d).1.read (s.alloc d).2 = d := by
  simp [Store.alloc, Store.read, List.getD_append_right]

lemma store_read_alloc_len (s : Store) (d : PDict) :
    (s.alloc d).1.read s.dicts.length = d :=
  store_read_alloc_new s d

lemma store_read_setdefaultAt_ne (s : Store) (r r2 : Nat) (k : String) (v : PVal)
    (h : r ≠ r2) : (s.setdefaultAt r2 k v).read r = s.read r := by
  show (s.dicts.set r2 (setdefault (s.dicts.getD r2 []) k v)).getD r [] = s.dicts.getD r []
  exact list_getD_set_ne _ _ _ _ _ h

lemma store_read_setdefaultAt_self (s : Store) (r : Nat) (k : String) (v : PVal)
    (h : r < s.dicts.length) :
    (s.setdefaultAt r k v).read r = setdefault (s.read r) k v := by
  show (s.dicts.set r (setdefault (s.dicts.getD r []) k v)).getD r [] = setdefault (s.dicts.getD r []) k v
  exact list_getD_set_self _ _ _ _ h

lemma store_length_setdefaultAt (s : Store) (r : Nat) (k : String) (v : PVal) :
    (s.setdefaultAt r k v).dicts.length = s.dicts.length := by
  simp [Store.setdefaultAt, Store.write]

/-- Unfolding the multipredictor regressor to its case tree. -/
lemma multiRegressor_eq (m : String) (Xtr Xte : List Row)
    (ytr yte : List (Option ℚ)) (p : PDict) :
    Multipredictor.regressor m Xtr Xte ytr yte p =
      match lookupKey m regModels with
      | none => Except.error (PyError.keyError m)
      | some f =>
        match firstUnexpectedKwarg (regressorAcceptedKwargs f)
            (Multipredictor.regressorEffectiveParams m p) with
        | some k => Except.error (PyError.typeError ("unexpected keyword argument " ++ k))
        | none =>
        if filterByMask Xtr (ytr.map Option.isSome) = [] then
          Except.error (PyError.valueError "0 samples")
        else if filterByMask Xte (yte.map Option.isSome) = [] then
          Except.error (PyError.valueError "0 samples")
        else Except.ok ⟨⟨f, Multipredictor.regressorEffectiveParams m p,
            filterByMask Xtr (ytr.map Option.isSome),
            (filterByMask ytr (ytr.map Option.isSome)).reduceOption⟩,
          filterByMask Xte (yte.map Option.isSome),
          filterByMask yte (yte.map Option.isSome)⟩ := rfl

/-- Unfolding the remote regressor to its case tree. -/
lemma remoteRegressor_eq (m : String) (Xtr Xte : List Row)
    (ytr yte : List (Option ℚ)) (p : PDict) :
    RemoteMultipredictor.regressor m Xtr Xte ytr yte p =
      match lookupKey m regModels with
      | none => Except.error (PyError.keyError m)
      | some f =>
        match firstUnexpectedKwarg (regressorAcceptedKwargs f)
            (RemoteMultipredictor.regressorEffectiveParams m p) with
        | some k => Except.error (PyError.typeError ("unexpected keyword argument " ++ k))
        | none =>
        if filterByMask Xtr (ytr.map Option.isSome) = [] then
          Except.error (PyError.valueError "0 samples")
        else if filterByMask Xte (yte.map Option.isSome) = [] then
          Except.error (PyError.valueError "0 samples")
        else Except.ok ⟨⟨f, RemoteMultipredictor.regressorEffectiveParams m p,
            filterByMask Xtr (ytr.map Option.isSome),
            (filterByMask ytr (ytr.map Option.isSome)).reduceOption⟩,
          filterByMask Xte (yte.map Option.isSome),
          filterByMask yte (yte.map Option.isSome)⟩ := rfl

/-! ### Claim theorems -/

/-- Claim C1 (code bug): the remote variant's `"LR"` classifier branch is the
documented attempt to fit each one-vs-rest sub-estimator individually with the
shared weight vector, but it iterates `model.estimators_` on a model that was
just constructed and never fitted, so it raises `AttributeError` and no
sub-estimator is ever fitted; the tracked variant has no loop at all and
passes `sample_weight` to `OneVsRestClassifier.fit`, which does not accept it.
Evaluated here at a concrete well-formed training set. -/
theorem C1_lr_weighted_fit_crashes :
    RemoteMultipredictor.classifier "LR" [[1], [2]] ["run", "walk"] []
        = Except.error (PyError.attributeError "estimators_")
    ∧ Multipredictor.classifier "LR" [[1], [2]] ["run", "walk"] []
        = Except.error (PyError.typeError "unexpected keyword argument sample_weight") :=
  ⟨rfl, rfl⟩

/-- Claim C2 (counterexample): at identical concrete RF inputs the two
variants' regressor routines return different results: the tracked variant
raises `TypeError` at estimator construction, because its always-defaulted
`class_weight="balanced"` is rejected by `RandomForestRegressor`, while the
remote variant (which never adds that key) fits and returns a model — so the
claimed equivalence fails. -/
theorem C2_counterexample :
    Multipredictor.regressor "RF" [[1]] [[2]] [some 1] [some 2] []
      ≠ RemoteMultipredictor.regressor "RF" [[1]] [[2]] [some 1] [some 2] [] := by
  decide

/-- Claim C2 (amended): the classifier routines of the two variants agree for
the RF and LGBM families, and the tracked regressor's effective
hyperparameters are exactly the remote's plus a `class_weight="balanced"`
default.  For the LGBM family — the only one whose regressor constructor
accepts that extra keyword — the regressor routines apply identical
conditioning, agree on errors, and produce the same fitted result apart from
that one entry.  For the RF and Linear families the tracked regressor always
fails at estimator construction with an unexpected-keyword `TypeError`,
while the remote regressor's own effective defaults are accepted by both
constructors; the LR classifier paths differ. -/
theorem C2_variant_equivalence_amended (m : String) (X : List Row) (ys : List String)
    (Xtr Xte : List Row) (ytr yte : List (Option ℚ)) (p : PDict) :
    ((m = "RF" ∨ m = "LGBM") →
      Multipredictor.classifier m X ys p = RemoteMultipredictor.classifier m X ys p)
    ∧ Multipredictor.regressorEffectiveParams m p
        = setdefault (RemoteMultipredictor.regressorEffectiveParams m p) "class_weight"
            (PVal.str "balanced")
    ∧ (m = "LGBM" →
       match Multipredictor.regressor m Xtr Xte ytr yte p,
             RemoteMultipredictor.regressor m Xtr Xte ytr yte p with
       | Except.ok r1, Except.ok r2 =>
           r1.model.family = r2.model.family ∧ r1.model.XFit = r2.model.XFit
           ∧ r1.model.yFit = r2.model.yFit ∧ r1.XTestFiltered = r2.XTestFiltered
           ∧ r1.yTestFiltered = r2.yTestFiltered
           ∧ r1.model.params
               = setdefault r2.model.params "class_weight" (PVal.str "balanced")
       | Except.error e1, Except.error e2 => e1 = e2
       | _, _ => False)
    ∧ ((m = "RF" ∨ m = "LR") →
        ∃ k, Multipredictor.regressor m Xtr Xte ytr yte p
          = Except.error (PyError.typeError ("unexpected keyword argument " ++ k)))
    ∧ firstUnexpectedKwarg (regressorAcceptedKwargs RegModelFamily.rf)
        (RemoteMultipredictor.regressorEffectiveParams "RF" []) = none
    ∧ firstUnexpectedKwarg (regressorAcceptedKwargs RegModelFamily.linear)
        (RemoteMultipredictor.regressorEffectiveParams "LR" []) = none := by
  refine ⟨?_, rfl, ?_, ?_, rfl, rfl⟩
  · rintro (rfl | rfl) <;>
      (unfold Multipredictor.classifier RemoteMultipredictor.classifier
       cases hs : sampleWeightOf ys <;> rfl)
  · intro hm
    subst hm
    rw [multiRegressor_eq, remoteRegressor_eq]
    have h1 : lookupKey "LGBM" regModels = some RegModelFamily.lgbm := rfl
    have h2 : ∀ q : PDict,
        firstUnexpectedKwarg (regressorAcceptedKwargs RegModelFamily.lgbm) q = none :=
      fun _ => rfl
    simp only [h1, h2]
    split_ifs with h3 h4
    · exact rfl
    · exact rfl
    · exact ⟨rfl, rfl, rfl, rfl, rfl, rfl⟩
  · rintro (rfl | rfl)
    · obtain ⟨w, hw⟩ : ∃ w, lookupKey "class_weight"
          (Multipredictor.regressorEffectiveParams "RF" p) = some w := by
        simp only [Multipredictor.regressorEffectiveParams]
        exact ⟨_, lookupKey_setdefault_self _ _ _⟩
      obtain ⟨k, hk⟩ := firstUnexpectedKwarg_some randomForestRegressorKwargs _
        ("class_weight", w) (mem_of_lookupKey _ _ _ hw) rfl
      exact ⟨k, multiRegressor_typeError "RF" RegModelFamily.rf _ _ _ _ p k rfl hk⟩
    · obtain ⟨w, hw⟩ : ∃ w, lookupKey "class_weight"
          (Multipredictor.regressorEffectiveParams "LR" p) = some w := by
        simp only [Multipredictor.regressorEffectiveParams]
        exact ⟨_, lookupKey_setdefault_self _ _ _⟩
      obtain ⟨k, hk⟩ := firstUnexpectedKwarg_some linearRegressionKwargs _
        ("class_weight", w) (mem_of_lookupKey _ _ _ hw) rfl
      exact ⟨k, multiRegressor_typeError "LR" RegModelFamily.linear _ _ _ _ p k rfl hk⟩

/-- Claim C2 (witness): the amended equivalence applied at concrete inputs:
classifier agreement for RF, and the tracked LGBM regressor relation. -/
theorem C2_variant_equivalence_witness :
    Multipredictor.classifier "RF" [[1]] ["run"] []
      = RemoteMultipredictor.classifier "RF" [[1]] ["run"] []
    ∧ ∃ k, Multipredictor.regressor "RF" [[1]] [[2]] [some 1] [some 2] []
        = Except.error (PyError.typeError ("unexpected keyword argument " ++ k)) :=
  ⟨(C2_variant_equivalence_amended "RF" [[1]] ["run"] [] [] [] [] []).1 (Or.inl rfl),
   (C2_variant_equivalence_amended "RF" [[1]] ["run"] [[1]] [[2]] [some 1] [some 2] []).2.2.2.1
     (Or.inl rfl)⟩

/-- Claim C3 (counterexample): for the Linear regression family the code never
applies the `random_state` default, so with an empty caller mapping the
effective parameters contain no seed, contradicting the claim that the
effective parameters use `random_state=42` whenever the caller did not set
it. -/
theorem C3_counterexample :
    lookupKey "random_state" (Multipredictor.regressorEffectiveParams "LR" []) = none := by
  decide

/-- Claim C3 (amended): defaults are applied only for keys the caller did not
set: `n_jobs=-1` always when absent; `random_state=42` when absent for the
classifier and for non-Linear regressor families (the Linear regressor gets no
seed default); for RF regression `n_estimators=10` and `max_depth=10` when
absent; and every caller-supplied entry is preserved unchanged, so a
caller-supplied `n_estimators` overrides the default of 10. -/
theorem C3_defaults_applied_amended (p : PDict) (m : String) :
    (lookupKey "n_jobs" (classifierEffectiveParams p)
        = some ((lookupKey "n_jobs" p).getD (PVal.int (-1))))
    ∧ (lookupKey "random_state" (classifierEffectiveParams p)
        = some ((lookupKey "random_state" p).getD (PVal.int 42)))
    ∧ (lookupKey "n_jobs" (Multipredictor.regressorEffectiveParams m p)
        = some ((lookupKey "n_jobs" p).getD (PVal.int (-1))))
    ∧ (m ≠ "LR" → lookupKey "random_state" (Multipredictor.regressorEffectiveParams m p)
        = some ((lookupKey "random_state" p).getD (PVal.int 42)))
    ∧ (lookupKey "random_state" (Multipredictor.regressorEffectiveParams "LR" p)
        = lookupKey "random_state" p)
    ∧ (lookupKey "n_estimators" (Multipredictor.regressorEffectiveParams "RF" p)
        = some ((lookupKey "n_estimators" p).getD (PVal.int 10)))
    ∧ (lookupKey "max_depth" (Multipredictor.regressorEffectiveParams "RF" p)
        = some ((lookupKey "max_depth" p).getD (PVal.int 10)))
    ∧ (∀ k v, lookupKey k p = some v →
        lookupKey k (classifierEffectiveParams p) = some v
        ∧ lookupKey k (Multipredictor.regressorEffectiveParams m p) = some v) := by
  refine ⟨?_, ?_, ?_, ?_, ?_, ?_, ?_, ?_⟩
  · unfold classifierEffectiveParams
    rw [lookupKey_setdefault_ne _ _ _ _ (by decide), lookupKey_setdefault_self]
  · unfold classifierEffectiveParams
    rw [lookupKey_setdefault_self, lookupKey_setdefault_ne _ _ _ _ (by decide)]
  · simp only [Multipredictor.regressorEffectiveParams]
    rw [lookupKey_setdefault_ne _ _ _ _ (by decide), lookupKey_setdefault_self]
    have hB : lookupKey "n_jobs"
        (if m = "RF" then
          setdefault (setdefault (if m ≠ "LR" then setdefault p "random_state" (PVal.int 42) else p)
            "n_estimators" (PVal.int 10)) "max_depth" (PVal.int 10)
        else (if m ≠ "LR" then setdefault p "random_state" (PVal.int 42) else p))
        = lookupKey "n_jobs" p := by
      split_ifs <;>
        simp [lookupKey_setdefault_ne _ _ _ _ (by decide : ("n_jobs" : String) ≠ "random_state"),
          lookupKey_setdefault_ne _ _ _ _ (by decide : ("n_jobs" : String) ≠ "n_estimators"),
          lookupKey_setdefault_ne _ _ _ _ (by decide : ("n_jobs" : String) ≠ "max_depth")]
    rw [hB]
  · intro hm
    simp only [Multipredictor.regressorEffectiveParams, if_pos hm]
    rw [lookupKey_setdefault_ne _ _ _ _ (by decide), lookupKey_setdefault_ne _ _ _ _ (by decide)]
    split_ifs with hrf
    · rw [lookupKey_setdefault_ne _ _ _ _ (by decide), lookupKey_setdefault_ne _ _ _ _ (by decide),
        lookupKey_setdefault_self]
    · rw [lookupKey_setdefault_self]
  · simp only [Multipredictor.regressorEffectiveParams, if_neg (by decide : ¬(("LR" : String) ≠ "LR")),
      if_neg (by decide : ¬(("LR" : String) = "RF"))]
    rw [lookupKey_setdefault_ne _ _ _ _ (by decide), lookupKey_setdefault_ne _ _ _ _ (by decide)]
  · simp only [Multipredictor.regressorEffectiveParams, reduceIte]
    rw [lookupKey_setdefault_ne _ _ _ _ (by decide), lookupKey_setdefault_ne _ _ _ _ (by decide),
      lookupKey_setdefault_ne _ _ _ _ (by decide), lookupKey_setdefault_self,
      if_pos (by decide : ("RF" : String) ≠ "LR"), lookupKey_setdefault_ne _ _ _ _ (by decide)]
  · simp only [Multipredictor.regressorEffectiveParams, reduceIte]
    rw [lookupKey_setdefault_ne _ _ _ _ (by decide), lookupKey_setdefault_ne _ _ _ _ (by decide),
      lookupKey_setdefault_self, lookupKey_setdefault_ne _ _ _ _ (by decide),
      if_pos (by decide : ("RF" : String) ≠ "LR"), lookupKey_setdefault_ne _ _ _ _ (by decide)]
  · intro k v hv
    constructor
    · unfold classifierEffectiveParams
      exact lookupKey_setdefault_of_some _ _ _ _ _ (lookupKey_setdefault_of_some _ _ _ _ _ hv)
    · simp only [Multipredictor.regressorEffectiveParams]
      apply lookupKey_setdefault_of_some
      apply lookupKey_setdefault_of_some
      split_ifs <;>
        first
          | exact hv
          | exact lookupKey_setdefault_of_some _ _ _ _ _ hv
          | exact lookupKey_setdefault_of_some _ _ _ _ _
              (lookupKey_setdefault_of_some _ _ _ _ _ hv)
          | exact lookupKey_setdefault_of_some _ _ _ _ _
              (lookupKey_setdefault_of_some _ _ _ _ _
                (lookupKey_setdefault_of_some _ _ _ _ _ hv))

/-- Claim C3 (witness): a caller-supplied RF ensemble size survives into the
effective parameters. -/
theorem C3_defaults_applied_witness :
    lookupKey "n_estimators"
        (Multipredictor.regressorEffectiveParams "RF" [("n_estimators", PVal.int 100)])
      = some (PVal.int 100) :=
  ((C3_defaults_applied_amended [("n_estimators", PVal.int 100)] "RF").2.2.2.2.2.2.2
    "n_estimators" (PVal.int 100) rfl).2

/-- Claim C4 (confirmed): the sample-weighting operation uses exactly the
fixed table run ↦ 1/0.4, jump ↦ 1/0.024, walk ↦ 1/0.576; when every label of
the training array is in the table it succeeds and assigns each row the weight
of its label, and when some label is outside the table it fails with the
`KeyError` that the spec names `UnknownLabelError`. -/
theorem C4_fixed_weight_table (ys : List String) :
    (lookupKey "run" class_weights = some (1 / 0.4)
      ∧ lookupKey "jump" class_weights = some (1 / 0.024)
      ∧ lookupKey "walk" class_weights = some (1 / 0.576)
      ∧ class_weights.length = 3)
    ∧ ((∀ l ∈ ys, (lookupKey l class_weights).isSome) →
        sampleWeightOf ys
          = Except.ok (ys.map (fun l => (lookupKey l class_weights).getD 0)))
    ∧ (∀ l ∈ ys, lookupKey l class_weights = none →
        ∃ l2, l2 ∈ ys ∧ lookupKey l2 class_weights = none
          ∧ sampleWeightOf ys = Except.error (PyError.keyError l2)) := by
  refine ⟨⟨rfl, rfl, rfl, rfl⟩, sampleWeightOf_ok_of_all ys, ?_⟩
  intro l hl hmiss
  exact sampleWeightOf_err_of_missing ys l hl hmiss

/-- Claim C4 (witness): the weighting succeeds on a concrete all-known label
array and fails on a concrete array containing the unknown label "stand". -/
theorem C4_fixed_weight_table_witness :
    sampleWeightOf ["run", "walk"]
      = Except.ok (["run", "walk"].map (fun l => (lookupKey l class_weights).getD 0))
    ∧ ∃ l2, l2 ∈ ["run", "stand"] ∧ lookupKey l2 class_weights = none
        ∧ sampleWeightOf ["run", "stand"] = Except.error (PyError.keyError l2) :=
  ⟨(C4_fixed_weight_table ["run", "walk"]).2.1 (by decide),
   (C4_fixed_weight_table ["run", "stand"]).2.2 "stand" (by decide) (by decide)⟩

/-- Claim C5 (confirmed): the regressor filters the train pair by the null
mask of its own train labels and the test pair by the null mask of its own
test labels; every row used for fitting or prediction has a non-null label of
its own target, the fitted model is independent of the test labels, and the
filtered test pair is independent of the train labels (so no other target's
mask is ever involved). -/
theorem C5_regressor_null_filtering (m : String) (Xtr Xte : List Row)
    (ytr yte : List (Option ℚ)) (p : PDict) (r : RegResult)
    (hlen1 : Xtr.length = ytr.length) (hlen2 : Xte.length = yte.length)
    (h : Multipredictor.regressor m Xtr Xte ytr yte p = Except.ok r) :
    (r.model.XFit.zip (r.model.yFit.map Option.some)
        = (Xtr.zip ytr).filter (fun q => q.2.isSome))
    ∧ (r.XTestFiltered.zip r.yTestFiltered = (Xte.zip yte).filter (fun q => q.2.isSome))
    ∧ (∀ v ∈ r.yTestFiltered, v.isSome)
    ∧ (∀ yte2 r2, Multipredictor.regressor m Xtr Xte ytr yte2 p = Except.ok r2 →
        r2.model = r.model)
    ∧ (∀ ytr2 r2, Multipredictor.regressor m Xtr Xte ytr2 yte p = Except.ok r2 →
        r2.XTestFiltered = r.XTestFiltered ∧ r2.yTestFiltered = r.yTestFiltered) := by
  rcases (multiRegressor_ok_iff m Xtr Xte ytr yte p r).mp h with ⟨f, hf, hg, ht1, ht2, rfl⟩
  refine ⟨?_, ?_, ?_, ?_, ?_⟩
  · show (filterByMask Xtr (ytr.map Option.isSome)).zip
        (((filterByMask ytr (ytr.map Option.isSome)).reduceOption).map Option.some) = _
    rw [reduceOption_filterByMask, filterByMask_zip Xtr ytr hlen1]
  · exact filterByMask_zip Xte yte hlen2
  · intro v hv
    exact isSome_of_mem_filterByMask yte v hv
  · intro yte2 r2 h2
    rcases (multiRegressor_ok_iff m Xtr Xte ytr yte2 p r2).mp h2 with
      ⟨f2, hf2, _, _, _, rfl⟩
    rw [hf] at hf2
    rw [Option.some.injEq] at hf2
    rw [hf2]
  · intro ytr2 r2 h2
    rcases (multiRegressor_ok_iff m Xtr Xte ytr2 yte p r2).mp h2 with
      ⟨f2, hf2, _, _, _, rfl⟩
    exact ⟨rfl, rfl⟩

/-- Claim C5 (witness): the filtered test pair of a concrete successful
regressor run (LGBM family, whose construction accepts the effective
parameters) keeps exactly the rows whose own test label is non-null. -/
theorem C5_regressor_null_filtering_witness :
    (RegResult.mk
        ⟨RegModelFamily.lgbm, Multipredictor.regressorEffectiveParams "LGBM" [], [[1]], [1]⟩
        [[2]] [some 2]).XTestFiltered.zip
      (RegResult.mk
        ⟨RegModelFamily.lgbm, Multipredictor.regressorEffectiveParams "LGBM" [], [[1]], [1]⟩
        [[2]] [some 2]).yTestFiltered
      = ([[(2 : ℚ)]].zip [some (2 : ℚ)]).filter (fun q => q.2.isSome) :=
  (C5_regressor_null_filtering "LGBM" [[1]] [[2]] [some 1] [some 2] []
    (RegResult.mk
      ⟨RegModelFamily.lgbm, Multipredictor.regressorEffectiveParams "LGBM" [], [[1]], [1]⟩
      [[2]] [some 2]) rfl rfl (by decide)).2.1

/-- Claim C6 (counterexample): on a split whose speed labels are all null but
whose incline data is well-formed (LGBM family, whose regressor survives
construction), the speed stage fails with the zero-eligible-rows error and
`main` never runs the incline stage, even though the incline regressor alone
would succeed — so it is false that every other stage still completes. -/
theorem C6_counterexample :
    (Multipredictor.mainStages "LGBM" allNullSpeedSplit).incline = none
    ∧ (Multipredictor.mainStages "LGBM" allNullSpeedSplit).speed
        = some (Except.error (PyError.valueError "0 samples"))
    ∧ Multipredictor.regressor "LGBM" allNullSpeedSplit.scaled_X_train
        allNullSpeedSplit.scaled_X_test allNullSpeedSplit.y3_train allNullSpeedSplit.y3_test []
        = Except.ok ⟨⟨RegModelFamily.lgbm, Multipredictor.regressorEffectiveParams "LGBM" [],
            [[1], [2]], [1, 2]⟩, [[3]], [some 3]⟩ :=
  ⟨rfl, rfl, rfl⟩

/-- Claim C6 (amended): when a regression target has zero eligible rows after
null-filtering, that stage fails — for the LGBM family, the only family whose
tracked regressor survives estimator construction, with the zero-sample fit
error (the spec's `EmptyConditionedDataset`); for the RF family the stage
fails unconditionally at construction with the `class_weight` `TypeError`
before any conditioning runs.  In both cases the classification stage, which
runs earlier, still completes, but the uncaught failure aborts the run, so
stages after the failed one are not executed. -/
theorem C6_empty_regression_target_amended (m : String) (d : SplitData) (a : ClassifierModel)
    (hc : Multipredictor.classifier m d.scaled_X_train d.y1_train [] = Except.ok a)
    (hempty : filterByMask d.scaled_X_train (d.y2_train.map Option.isSome) = []) :
    (m = "LGBM" → Multipredictor.mainStages m d
        = ⟨some (Except.ok a), some (Except.error (PyError.valueError "0 samples")), none⟩)
    ∧ (m = "RF" → Multipredictor.mainStages m d
        = ⟨some (Except.ok a),
           some (Except.error
             (PyError.typeError "unexpected keyword argument class_weight")),
           none⟩) := by
  constructor
  · intro hm
    subst hm
    have hreg : Multipredictor.regressor "LGBM" d.scaled_X_train d.scaled_X_test
        d.y2_train d.y2_test [] = Except.error (PyError.valueError "0 samples") :=
      Multipredictor.regressor_err_empty_train _ RegModelFamily.lgbm _ _ _ _ _ rfl rfl hempty
    unfold Multipredictor.mainStages
    rw [hc, hreg]
  · intro hm
    subst hm
    have hreg : Multipredictor.regressor "RF" d.scaled_X_train d.scaled_X_test
        d.y2_train d.y2_test []
        = Except.error (PyError.typeError "unexpected keyword argument class_weight") :=
      multiRegressor_typeError "RF" RegModelFamily.rf _ _ _ _ [] "class_weight" rfl rfl
    unfold Multipredictor.mainStages
    rw [hc, hreg]

/-- Claim C6 (witness): the amended statement evaluated on a concrete
all-null-speed split, once with the LGBM family (zero-sample error) and once
with the RF family (construction `TypeError`). -/
theorem C6_empty_regression_target_witness :
    Multipredictor.mainStages "LGBM" allNullSpeedSplit
      = ⟨some (Except.ok (ClassifierModel.lgbm (classifierEffectiveParams [])
            ⟨[[1], [2]], ["run", "walk"], some [1 / 0.4, 1 / 0.576]⟩)),
         some (Except.error (PyError.valueError "0 samples")), none⟩
    ∧ Multipredictor.mainStages "RF" allNullSpeedSplit
      = ⟨some (Except.ok (ClassifierModel.rf (classifierEffectiveParams [])
            ⟨[[1], [2]], ["run", "walk"], some [1 / 0.4, 1 / 0.576]⟩)),
         some (Except.error
           (PyError.typeError "unexpected keyword argument class_weight")),
         none⟩ :=
  ⟨(C6_empty_regression_target_amended "LGBM" allNullSpeedSplit _ rfl (by decide)).1 rfl,
   (C6_empty_regression_target_amended "RF" allNullSpeedSplit _ rfl (by decide)).2 rfl⟩

/-- Claim C7 (confirmed; the matrix builder itself is modelled from the spec
because `lisa.evaluate` is not under `src/`): the confusion matrix is an
n-by-n array for n the number of distinct activity labels of the full
dataset, and its label axis is exactly the distinct labels in first-occurrence
order — pairwise ordered by first occurrence in the source column, not
sorted. -/
theorem C7_confusion_labels_first_occurrence (activities yTrue yPred : List String) :
    ((confusionMatrix (Multipredictor.mainConfusionLabels activities) yTrue yPred).length
        = activities.toFinset.card)
    ∧ (∀ row ∈ confusionMatrix (Multipredictor.mainConfusionLabels activities) yTrue yPred,
        row.length = activities.toFinset.card)
    ∧ (Multipredictor.mainConfusionLabels activities).Nodup
    ∧ (∀ a, a ∈ Multipredictor.mainConfusionLabels activities ↔ a ∈ activities)
    ∧ (Multipredictor.mainConfusionLabels activities).Pairwise
        (fun a b => activities.indexOf a < activities.indexOf b) := by
  have hnd := nodup_uniqueMaintainOrder activities
  have hmem := fun a => mem_uniqueMaintainOrder a activities
  have hfin : (uniqueMaintainOrder activities).toFinset = activities.toFinset := by
    ext a
    simp only [List.mem_toFinset]
    exact hmem a
  have hcard : (uniqueMaintainOrder activities).length = activities.toFinset.card := by
    rw [← hfin, List.toFinset_card_of_nodup hnd]
  refine ⟨?_, ?_, hnd, hmem, indexOf_uniqueMaintainOrder activities⟩
  · simp only [confusionMatrix, Multipredictor.mainConfusionLabels, List.length_map]
    exact hcard
  · intro row hrow
    rcases List.mem_map.mp hrow with ⟨t, ht, hte⟩
    rw [← hte, List.length_map]
    exact hcard

/-- Claim C8 (confirmed): the feature-importance extraction returns an ordered
name-to-importance mapping whose entries are sorted non-increasing by
importance value, and every entry pairs a feature name with that feature's raw
importance (ties are left to the underlying stable sort, as the spec
allows). -/
theorem C8_feature_importances_sorted (fi : List ℚ) (names : List String) :
    (featureImportances fi names).Pairwise (fun a b : String × ℚ => b.2 ≤ a.2)
    ∧ ∀ p ∈ featureImportances fi names,
        ∃ j, j < fi.length ∧ p = (names.getD j "", fi.getD j 0) := by
  constructor
  · exact pairwise_sortByValDesc _
  · intro p hp
    have hp1 : p ∈ dictOfPairs ((List.range fi.length).map
        (fun i => (names.getD (((argsortAsc fi).reverse).getD i 0) "",
                   fi.getD (((argsortAsc fi).reverse).getD i 0) 0))) :=
      mem_sortByValDesc p _ hp
    have hp2 := mem_dictOfPairs _ p hp1
    rcases List.mem_map.mp hp2 with ⟨i, hi, hpe⟩
    have hii : i < fi.length := List.mem_range.mp hi
    have hlen : ((argsortAsc fi).reverse).length = fi.length := by
      rw [List.length_reverse, length_argsortAsc]
    have hjmem : ((argsortAsc fi).reverse).getD i 0 ∈ (argsortAsc fi).reverse := by
      rw [List.getD_eq_getElem _ _ (by rw [hlen]; exact hii)]
      exact List.getElem_mem _
    exact ⟨((argsortAsc fi).reverse).getD i 0,
      mem_argsortAsc_lt fi _ (List.mem_reverse.mp hjmem), hpe.symm⟩

/-- Claim C9 (confirmed): when every training label is in the fixed weight
table, the materialized sample-weight vector has one entry per row of the
label array and every weight in it is strictly positive. -/
theorem C9_weight_vector_shape (ys : List String)
    (h : ∀ l ∈ ys, (lookupKey l class_weights).isSome) :
    ∃ ws, sampleWeightOf ys = Except.ok ws ∧ ws.length = ys.length ∧ ∀ w ∈ ws, 0 < w := by
  refine ⟨ys.map (fun l => (lookupKey l class_weights).getD 0),
    sampleWeightOf_ok_of_all ys h, List.length_map _ _, ?_⟩
  intro w hw
  rcases List.mem_map.mp hw with ⟨l, hl, hlw⟩
  rcases Option.isSome_iff_exists.mp (h l hl) with ⟨w2, hw2⟩
  rw [← hlw, hw2]
  exact class_weights_pos l w2 hw2

/-- Claim C9 (witness): the weight vector of a concrete one-row label array. -/
theorem C9_weight_vector_witness :
    ∃ ws, sampleWeightOf ["jump"] = Except.ok ws
      ∧ ws.length = (["jump"] : List String).length ∧ ∀ w ∈ ws, 0 < w :=
  C9_weight_vector_shape ["jump"] (by decide)

/-- Claim C10 (confirmed): both variants' classifier and regressor
param-handling mutates only the fresh copy made by `params.copy()`: against an
explicit heap of dict objects, the caller's dict is unchanged by the call
while the fresh dict holds exactly the effective parameters. -/
theorem C10_caller_params_unchanged (s : Store) (r : Nat) (m : String)
    (hr : r < s.dicts.length) :
    ((Multipredictor.classifierParamsHeap s r).1.read r = s.read r
      ∧ (Multipredictor.classifierParamsHeap s r).1.read
          (Multipredictor.classifierParamsHeap s r).2
          = classifierEffectiveParams (s.read r))
    ∧ ((Multipredictor.regressorParamsHeap m s r).1.read r = s.read r
      ∧ (Multipredictor.regressorParamsHeap m s r).1.read
          (Multipredictor.regressorParamsHeap m s r).2
          = Multipredictor.regressorEffectiveParams m (s.read r))
    ∧ ((RemoteMultipredictor.classifierParamsHeap s r).1.read r = s.read r
      ∧ (RemoteMultipredictor.classifierParamsHeap s r).1.read
          (RemoteMultipredictor.classifierParamsHeap s r).2
          = classifierEffectiveParams (s.read r))
    ∧ ((RemoteMultipredictor.regressorParamsHeap m s r).1.read r = s.read r
      ∧ (RemoteMultipredictor.regressorParamsHeap m s r).1.read
          (RemoteMultipredictor.regressorParamsHeap m s r).2
          = RemoteMultipredictor.regressorEffectiveParams m (s.read r)) := by
  have hne : r ≠ s.dicts.length := Nat.ne_of_lt hr
  have hlen0 : (s.alloc (s.read r)).1.dicts.length = s.dicts.length + 1 := by
    simp [Store.alloc]
  have hlt : s.dicts.length < (s.alloc (s.read r)).1.dicts.length := by
    rw [hlen0]
    exact Nat.lt_succ_self _
  have ha2 : (s.alloc (s.read r)).2 = s.dicts.length := rfl
  refine ⟨⟨?_, ?_⟩, ⟨?_, ?_⟩, ⟨?_, ?_⟩, ⟨?_, ?_⟩⟩
  · simp only [Multipredictor.classifierParamsHeap, ha2]
    rw [store_read_setdefaultAt_ne _ _ _ _ _ hne, store_read_setdefaultAt_ne _ _ _ _ _ hne]
    exact store_read_alloc_lt s _ r hr
  · simp only [Multipredictor.classifierParamsHeap, classifierEffectiveParams, ha2]
    rw [store_read_setdefaultAt_self _ _ _ _
        (by simp only [store_length_setdefaultAt, hlen0]; omega),
      store_read_setdefaultAt_self _ _ _ _ (by simp only [hlen0]; omega),
      store_read_alloc_len]
  · simp only [Multipredictor.regressorParamsHeap, ha2]
    rw [store_read_setdefaultAt_ne _ _ _ _ _ hne, store_read_setdefaultAt_ne _ _ _ _ _ hne]
    split_ifs <;>
      first
        | exact store_read_alloc_lt s _ r hr
        | (simp only [store_read_setdefaultAt_ne _ _ _ _ _ hne]
           exact store_read_alloc_lt s _ r hr)
  · simp only [Multipredictor.regressorParamsHeap, Multipredictor.regressorEffectiveParams, ha2]
    by_cases hRF : m = "RF"
    · have hLR : m ≠ "LR" := by rw [hRF]; decide
      simp only [if_pos hLR, if_pos hRF]
      rw [store_read_setdefaultAt_self _ _ _ _
          (by simp only [store_length_setdefaultAt, hlen0]; omega),
        store_read_setdefaultAt_self _ _ _ _
          (by simp only [store_length_setdefaultAt, hlen0]; omega),
        store_read_setdefaultAt_self _ _ _ _
          (by simp only [store_length_setdefaultAt, hlen0]; omega),
        store_read_setdefaultAt_self _ _ _ _
          (by simp only [store_length_setdefaultAt, hlen0]; omega),
        store_read_setdefaultAt_self _ _ _ _ (by simp only [hlen0]; omega),
        store_read_alloc_len]
    · by_cases hLR : m ≠ "LR"
      · simp only [if_pos hLR, if_neg hRF]
        rw [store_read_setdefaultAt_self _ _ _ _
            (by simp only [store_length_setdefaultAt, hlen0]; omega),
          store_read_setdefaultAt_self _ _ _ _
            (by simp only [store_length_setdefaultAt, hlen0]; omega),
          store_read_setdefaultAt_self _ _ _ _ (by simp only [hlen0]; omega),
          store_read_alloc_len]
      · simp only [if_neg hLR, if_neg hRF]
        rw [store_read_setdefaultAt_self _ _ _ _
            (by simp only [store_length_setdefaultAt, hlen0]; omega),
          store_read_setdefaultAt_self _ _ _ _ (by simp only [hlen0]; omega),
          store_read_alloc_len]
  · simp only [RemoteMultipredictor.classifierParamsHeap, ha2]
    rw [store_read_setdefaultAt_ne _ _ _ _ _ hne, store_read_setdefaultAt_ne _ _ _ _ _ hne]
    exact store_read_alloc_lt s _ r hr
  · simp only [RemoteMultipredictor.classifierParamsHeap, classifierEffectiveParams, ha2]
    rw [store_read_setdefaultAt_self _ _ _ _
        (by simp only [store_length_setdefaultAt, hlen0]; omega),
      store_read_setdefaultAt_self _ _ _ _ (by simp only [hlen0]; omega),
      store_read_alloc_len]
  · simp only [RemoteMultipredictor.regressorParamsHeap, ha2]
    rw [store_read_setdefaultAt_ne _ _ _ _ _ hne]
    split_ifs <;>
      first
        | exact store_read_alloc_lt s _ r hr
        | (simp only [store_read_setdefaultAt_ne _ _ _ _ _ hne]
           exact store_read_alloc_lt s _ r hr)
  · simp only [RemoteMultipredictor.regressorParamsHeap,
      RemoteMultipredictor.regressorEffectiveParams, ha2]
    by_cases hRF : m = "RF"
    · have hLR : m ≠ "LR" := by rw [hRF]; decide
      simp only [if_pos hLR, if_pos hRF]
      rw [store_read_setdefaultAt_self _ _ _ _
          (by simp only [store_length_setdefaultAt, hlen0]; omega),
        store_read_setdefaultAt_self _ _ _ _
          (by simp only [store_length_setdefaultAt, hlen0]; omega),
        store_read_setdefaultAt_self _ _ _ _
          (by simp only [store_length_setdefaultAt, hlen0]; omega),
        store_read_setdefaultAt_self _ _ _ _ (by simp only [hlen0]; omega),
        store_read_alloc_len]
    · by_cases hLR : m ≠ "LR"
      · simp only [if_pos hLR, if_neg hRF]
        rw [store_read_setdefaultAt_self _ _ _ _
            (by simp only [store_length_setdefaultAt, hlen0]; omega),
          store_read_setdefaultAt_self _ _ _ _ (by simp only [hlen0]; omega),
          store_read_alloc_len]
      · simp only [if_neg hLR, if_neg hRF]
        rw [store_read_setdefaultAt_self _ _ _ _ (by simp only [hlen0]; omega),
          store_read_alloc_len]

/-- Claim C10 (witness): a concrete caller dict is unchanged by the RF
regressor's param handling. -/
theorem C10_caller_params_witness :
    (Multipredictor.regressorParamsHeap "RF"
        (Store.mk [[("n_estimators", PVal.int 7)]]) 0).1.read 0
      = (Store.mk [[("n_estimators", PVal.int 7)]]).read 0 :=
  (C10_caller_params_unchanged (Store.mk [[("n_estimators", PVal.int 7)]]) 0 "RF"
    (by decide)).2.1.1
